import Mathlib

/-!
Verification of the Tasker task-lifecycle engine.

This file is a shallow embedding, in Lean 4, of the parts of the Tasker
repository that the lifecycle claims are about:

* `app/models/task.py`   — the `Task` record and its `TaskStatus` enum;
* `app/api/routes.py`    — `run_task`, `_validate_task_parameters`,
  `get_task_output`;
* `app/core/cache.py`    — `CacheService.set` (the write path used by
  `get_task_output`);
* `app/tasks/base.py`    — `BaseTask.run`, the worker execution engine;
* `app/tasks/sum_task.py`, `app/tasks/chatgpt_task.py`,
  `app/tasks/weather_task.py` — the three task bodies and their Celery
  wrappers (`bind=True, max_retries=3`, per-task `default_retry_delay`).

Modelling conventions:
* Python numbers are embedded as `Number`: exact integers, finite floats as
  exact rationals, plus explicit `nan` and signed infinity.  Python `bool`
  is a separate `PyVal` constructor, but — as in CPython — it counts as an
  `int` for `isinstance` checks and arithmetic.
* External I/O (the Open-Meteo HTTP calls, the OpenAI client call, the Redis
  backend) is supplied through explicit oracle values describing the
  response of each call; the surrounding control flow is translated from the
  source.
* Database commits are modelled as appending the updated record to a trace
  of persisted snapshots inside `EngineState`; Prometheus gauge updates and
  the duration-histogram observation count are carried in the same state.
  Structured logging and the external-API request counters are process-wide
  telemetry with no bearing on any claim and are not modelled.
-/

namespace Tasker

/-! ## Python values (`app` passes JSON-ish parameter and result values) -/

/-- A Python float idealized: finite values are exact rationals, with
explicit `nan` and signed infinity; Python `int` is unbounded. -/
inductive Number where
  | int (n : Int)
  | float (q : ℚ)
  | nan
  | inf (pos : Bool)

/-- A Python/JSON value as it appears in `task_parameters` and `result`. -/
inductive PyVal where
  | none
  | bool (b : Bool)
  | num (n : Number)
  | str (s : String)
  | dict (entries : List (String × PyVal))
  | list (xs : List PyVal)

/-- `isinstance(x, (int, float))`: true for `bool` too, since Python's
`bool` subclasses `int`. -/
def isNumber : PyVal → Bool
  | .bool _ => true
  | .num _ => true
  | _ => false

/-- `isinstance(x, int)` (again true for `bool`). -/
def isInt : PyVal → Bool
  | .bool _ => true
  | .num (.int _) => true
  | _ => false

/-- Numeric value of a Python number, coercing `bool` to 0/1 as CPython
does.  Only applied under an `isNumber` guard; the default branch is the
unreachable fallback required for totality. -/
def toNumberD : PyVal → Number
  | .bool b => .int (if b then 1 else 0)
  | .num n => n
  | _ => .int 0

/-- Python `abs` on a number. -/
def numAbs : Number → Number
  | .int n => .int (Int.natAbs n)
  | .float q => .float |q|
  | .nan => .nan
  | .inf _ => .inf true

/-- Python `x > q` for a number `x` against a finite float bound `q`:
comparisons against `nan` are false, `+inf` beats every finite bound. -/
def numGtRat (x : Number) (q : ℚ) : Bool :=
  match x with
  | .int m => decide ((m : ℚ) > q)
  | .float p => decide (p > q)
  | .nan => false
  | .inf pos => pos

/-- `math.isnan(x) or math.isinf(x)`. -/
def numIsNanOrInf : Number → Bool
  | .nan => true
  | .inf _ => true
  | _ => false

/-- Python `0 <= x <= 2` (false for `nan`, false for infinities). -/
def numBetween0And2 : Number → Bool
  | .int m => decide (0 ≤ m ∧ m ≤ 2)
  | .float p => decide (0 ≤ p ∧ p ≤ 2)
  | .nan => false
  | .inf _ => false

/-- Python `+` on numbers (`True + True == 2`; `int + int` stays `int`). -/
def addNumber : Number → Number → Number
  | .nan, _ => .nan
  | _, .nan => .nan
  | .inf p, .inf q => if p = q then .inf p else .nan
  | .inf p, .int _ => .inf p
  | .inf p, .float _ => .inf p
  | .int _, .inf q => .inf q
  | .float _, .inf q => .inf q
  | .int m, .int n => .int (m + n)
  | .int m, .float q => .float ((m : ℚ) + q)
  | .float p, .int n => .float (p + (n : ℚ))
  | .float p, .float q => .float (p + q)

/-- `type(x).__name__`, used in `SumTask.execute` error messages. -/
def pyTypeName : PyVal → String
  | .none => "NoneType"
  | .bool _ => "bool"
  | .num (.int _) => "int"
  | .num _ => "float"
  | .str _ => "str"
  | .dict _ => "dict"
  | .list _ => "list"

/-- Python `str.strip()`: drop whitespace from both ends. -/
def pyStrip (s : String) : String :=
  String.mk (((s.data.dropWhile Char.isWhitespace).reverse.dropWhile
    Char.isWhitespace).reverse)

/-- Association-list lookup in a result dict (`result["result"]`). -/
def dictLookup (v : PyVal) (key : String) : Option PyVal :=
  match v with
  | .dict entries => entries.lookup key
  | _ => Option.none

/-! ## Settings (`app/config.py`, default values) -/

/-- The fields of `Settings` the embedded code reads.  The module-level
`settings = get_settings()` globals in the source resolve to the defaults
declared in `app/config.py` (environment overrides out of scope). -/
structure Settings where
  maxPromptLength : Nat
  maxCityLength : Nat
  maxNumberValue : ℚ
  cacheTtlSeconds : Nat

/-- Defaults from `app/config.py`: `max_prompt_length = 10000`,
`max_city_length = 100`, `max_number_value = 1e15`,
`cache_ttl_seconds = 3600`. -/
def settings : Settings :=
  { maxPromptLength := 10000
    maxCityLength := 100
    maxNumberValue := 1000000000000000
    cacheTtlSeconds := 3600 }

/-! ## Task record (`app/models/task.py`) -/

/-- `TaskStatus` enum from `app/models/task.py`. -/
inductive TaskStatus where
  | pending
  | running
  | completed
  | failed
deriving DecidableEq, Repr

/-- `completed` and `failed` are the terminal statuses. -/
def TaskStatus.isTerminal : TaskStatus → Bool
  | .completed => true
  | .failed => true
  | _ => false

/-- The mutable fields of a `Task` row that the lifecycle touches.
`id`, `task_name`, `task_parameters` and `created_at` are set at creation
and never written afterwards, so they are omitted; timestamps are abstract
ticks (the attempt index). -/
structure TaskRecord where
  status : TaskStatus
  result : Option PyVal
  error_message : Option String
  completed_at : Option Nat

/-! ## Task names and parameter validation (`app/api/routes.py`) -/

/-- The closed `TaskName` enum from `app/api/schemas.py`. -/
inductive TaskName where
  | sum
  | chatgpt
  | weather
deriving DecidableEq, Repr

/-- `task_parameters`: a JSON object, as an association list. -/
abbrev Params := List (String × PyVal)

/-- Character class of the `^[\w\s\-\.,\']+$` allow-list in the weather
branch of `_validate_task_parameters` (`\w` = alphanumeric or underscore,
`\s` = whitespace). -/
def isCityChar (c : Char) : Bool :=
  c.isAlphanum || c = '_' || c.isWhitespace || c = '-' || c = '.' ||
    c = ',' || c = Char.ofNat 39

/-- `_validate_task_parameters` (`app/api/routes.py`), check for check in
source order.  Raising `ValueError(msg)` is `.error msg`. -/
def validateTaskParameters (taskName : TaskName) (p : Params) :
    Except String Unit :=
  match taskName with
  | .sum =>
    match p.lookup "a" with
    | Option.none => .error "Parameter 'a' is required for sum task"
    | some va =>
      match p.lookup "b" with
      | Option.none => .error "Parameter 'b' is required for sum task"
      | some vb =>
        if isNumber va = false then .error "Parameter 'a' must be a number"
        else if isNumber vb = false then
          .error "Parameter 'b' must be a number"
        else
          let na := toNumberD va
          let nb := toNumberD vb
          if numGtRat (numAbs na) settings.maxNumberValue then
            .error "Parameter 'a' exceeds maximum allowed value of 1e+15"
          else if numGtRat (numAbs nb) settings.maxNumberValue then
            .error "Parameter 'b' exceeds maximum allowed value of 1e+15"
          else if numIsNanOrInf na then
            .error "Parameter 'a' must be a finite number"
          else if numIsNanOrInf nb then
            .error "Parameter 'b' must be a finite number"
          else .ok ()
  | .chatgpt =>
    match p.lookup "prompt" with
    | Option.none => .error "Parameter 'prompt' is required for chatgpt task"
    | some (.str s) =>
      let prompt := pyStrip s
      if prompt = "" then
        .error "Parameter 'prompt' must be a non-empty string"
      else if prompt.length > settings.maxPromptLength then
        .error "Parameter 'prompt' exceeds maximum length of 10000 characters"
      else
        match p.lookup "max_tokens" with
        | some vt =>
          if isInt vt = false then
            .error "Parameter 'max_tokens' must be a positive integer"
          else if numGtRat (toNumberD vt) 0 = false then
            .error "Parameter 'max_tokens' must be a positive integer"
          else if numGtRat (toNumberD vt) 4000 then
            .error "Parameter 'max_tokens' cannot exceed 4000"
          else validateTemperature p
        | Option.none => validateTemperature p
    | some _ => .error "Parameter 'prompt' must be a string"
  | .weather =>
    match p.lookup "city" with
    | Option.none => .error "Parameter 'city' is required for weather task"
    | some (.str s) =>
      let city := pyStrip s
      if city = "" then
        .error "Parameter 'city' must be a non-empty string"
      else if city.length > settings.maxCityLength then
        .error "Parameter 'city' exceeds maximum length of 100 characters"
      else if (city.data.all isCityChar) = false then
        .error "Parameter 'city' contains invalid characters"
      else
        match p.lookup "units" with
        | Option.none => .ok ()
        | some (.str "metric") => .ok ()
        | some (.str "imperial") => .ok ()
        | some (.str "kelvin") => .ok ()
        | some _ =>
          .error "Parameter 'units' must be 'metric', 'imperial', or 'kelvin'"
    | some _ => .error "Parameter 'city' must be a string"
where
  /-- The optional-`temperature` tail of the chatgpt branch. -/
  validateTemperature (p : Params) : Except String Unit :=
    match p.lookup "temperature" with
    | Option.none => .ok ()
    | some vt =>
      if isNumber vt = false then
        .error "Parameter 'temperature' must be a number"
      else if numBetween0And2 (toNumberD vt) = false then
        .error "Parameter 'temperature' must be between 0 and 2"
      else .ok ()

/-! ## Submission (`run_task` in `app/api/routes.py`) -/

/-- HTTP outcome of `POST /run-task`: 202 with a UUID, or 400 with the
`ValueError` message as `detail`. -/
inductive SubmitResponse where
  | accepted
  | badRequest (reason : String)

/-- What `run_task` did: its response, the `Task` row it persisted (if
any), and whether `celery_task.delay(...)` was called. -/
structure SubmitOutcome where
  response : SubmitResponse
  created : Option TaskRecord
  enqueued : Bool

/-- The freshly created row: `status=TaskStatus.PENDING.value`, all other
lifecycle fields at their column defaults (NULL). -/
def initialRecord : TaskRecord :=
  { status := .pending
    result := Option.none
    error_message := Option.none
    completed_at := Option.none }

/-- `run_task` (`app/api/routes.py`).  `get_celery_task` finds a Celery
task for every member of the closed `TaskName` enum, so the
`Unknown task` branch is unreachable and does not appear.  On validation
failure the handler re-raises as a 400 before `session.add`/`commit` and
before `celery_task.delay`, so nothing is persisted or enqueued. -/
def runTask (taskName : TaskName) (p : Params) : SubmitOutcome :=
  match validateTaskParameters taskName p with
  | .error m => { response := .badRequest m
                  created := Option.none
                  enqueued := false }
  | .ok _ => { response := .accepted
               created := some initialRecord
               enqueued := true }

/-! ## Task bodies -/

/-- Python exception classes distinguished by the Celery wrappers and the
task bodies; each carries `str(e)`. -/
inductive PyError where
  | valueError (msg : String)
  | runtimeError (msg : String)
  | requestError (msg : String)
  | openAIError (msg : String)
deriving DecidableEq, Repr

/-- The class test `isinstance(exc, ValueError)` in the Celery wrappers. -/
def PyError.isValueError : PyError → Bool
  | .valueError _ => true
  | _ => false

/-- `str(e)`, as stored into `task.error_message`. -/
def PyError.message : PyError → String
  | .valueError m => m
  | .runtimeError m => m
  | .requestError m => m
  | .openAIError m => m

/-- Result of one invocation of an `execute` body: a returned result dict,
or a raised exception. -/
inductive ExecOutcome where
  | ok (r : PyVal)
  | err (e : PyError)

/-- `SumTask.execute` (`app/tasks/sum_task.py`). -/
def sumExecute (a b : PyVal) : ExecOutcome :=
  if isNumber a = false then
    .err (.valueError ("Parameter 'a' must be numeric, got " ++ pyTypeName a))
  else if isNumber b = false then
    .err (.valueError ("Parameter 'b' must be numeric, got " ++ pyTypeName b))
  else
    .ok (.dict [("operation", .str "sum"), ("a", a), ("b", b),
      ("result", .num (addNumber (toNumberD a) (toNumberD b)))])

/-- Outcome of the one `client.chat.completions.create(...)` call inside
`ChatGPTTask.execute`: the oracle for the external OpenAI API. -/
inductive ChatApiOutcome where
  | success (content : Option String) (usage : Option (Nat × Nat × Nat))
  | openAIError (msg : String)

/-- `ChatGPTTask.execute` (`app/tasks/chatgpt_task.py`).  `apiKey` is
`settings.openai_api_key` (environment-supplied); `api` is the response of
the external call when one is made.  An `OpenAIError` is re-raised after
the metrics block. -/
def chatgptExecute (apiKey : String) (api : ChatApiOutcome) (prompt : String)
    (modelName : String) : ExecOutcome :=
  if prompt = "" then
    .err (.valueError "Parameter 'prompt' must be a non-empty string")
  else if prompt.length > settings.maxPromptLength then
    .err (.valueError "Prompt exceeds maximum length of 10000 characters")
  else if apiKey = "" then
    .err (.valueError "OpenAI API key is not configured")
  else
    match api with
    | .openAIError m => .err (.openAIError m)
    | .success content usage =>
      .ok (.dict [("prompt", .str prompt),
        ("response", match content with
          | some c => .str c
          | Option.none => .none),
        ("model", .str modelName),
        ("usage", .dict [
          ("prompt_tokens", .num (.int ((usage.map Prod.fst).getD 0))),
          ("completion_tokens",
            .num (.int ((usage.map (fun u => u.2.1)).getD 0))),
          ("total_tokens", .num (.int ((usage.map (fun u => u.2.2)).getD 0)))])])

/-- One geocoding hit (`geo_data["results"][0]`): `latitude`/`longitude`
are required keys, `name` and `country_code` are read with `.get`. -/
structure GeoLocation where
  latitude : ℚ
  longitude : ℚ
  name : Option String
  country_code : Option String

/-- Oracle for the geocoding HTTP call in `WeatherTask.execute`:
a non-200 status, a 200 response carrying the `results` list, a timeout
(`httpx.TimeoutException`), or a transport error (`httpx.RequestError`). -/
inductive GeoResponse where
  | httpError (code : Nat)
  | results (rs : List GeoLocation)
  | timeout
  | requestError (msg : String)

/-- The `current` object of the forecast response (`data.get("current", {})`);
each field read with `.get`. -/
structure CurrentWeather where
  temperature_2m : Option ℚ
  relative_humidity_2m : Option ℚ
  apparent_temperature : Option ℚ
  weather_code : Option Int
  cloud_cover : Option ℚ
  pressure_msl : Option ℚ
  wind_speed_10m : Option ℚ
  wind_direction_10m : Option ℚ

/-- Oracle for the forecast HTTP call: non-200 status, a 200 response with
its `current` object and `timezone`, a timeout, or a transport error. -/
inductive WeatherResponse where
  | httpError (code : Nat)
  | current (cur : CurrentWeather) (timezone : Option String)
  | timeout
  | requestError (msg : String)

/-- `WeatherTask._get_weather_description`: WMO code to
(main, description, icon), defaulting to Unknown. -/
def weatherDescription (code : Int) : String × String × String :=
  match code with
  | 0 => ("Clear", "Clear sky", "☀️")
  | 1 => ("Mainly Clear", "Mainly clear", "🌤️")
  | 2 => ("Partly Cloudy", "Partly cloudy", "⛅")
  | 3 => ("Overcast", "Overcast", "☁️")
  | 45 => ("Fog", "Fog", "🌫️")
  | 48 => ("Fog", "Depositing rime fog", "🌫️")
  | 51 => ("Drizzle", "Light drizzle", "🌧️")
  | 53 => ("Drizzle", "Moderate drizzle", "🌧️")
  | 55 => ("Drizzle", "Dense drizzle", "🌧️")
  | 56 => ("Freezing Drizzle", "Light freezing drizzle", "🌧️")
  | 57 => ("Freezing Drizzle", "Dense freezing drizzle", "🌧️")
  | 61 => ("Rain", "Slight rain", "🌧️")
  | 63 => ("Rain", "Moderate rain", "🌧️")
  | 65 => ("Rain", "Heavy rain", "🌧️")
  | 66 => ("Freezing Rain", "Light freezing rain", "🌧️")
  | 67 => ("Freezing Rain", "Heavy freezing rain", "🌧️")
  | 71 => ("Snow", "Slight snowfall", "🌨️")
  | 73 => ("Snow", "Moderate snowfall", "🌨️")
  | 75 => ("Snow", "Heavy snowfall", "🌨️")
  | 77 => ("Snow", "Snow grains", "🌨️")
  | 80 => ("Rain Showers", "Slight rain showers", "🌦️")
  | 81 => ("Rain Showers", "Moderate rain showers", "🌦️")
  | 82 => ("Rain Showers", "Violent rain showers", "🌦️")
  | 85 => ("Snow Showers", "Slight snow showers", "🌨️")
  | 86 => ("Snow Showers", "Heavy snow showers", "🌨️")
  | 95 => ("Thunderstorm", "Thunderstorm", "⛈️")
  | 96 => ("Thunderstorm", "Thunderstorm with slight hail", "⛈️")
  | 99 => ("Thunderstorm", "Thunderstorm with heavy hail", "⛈️")
  | _ => ("Unknown", "Unknown", "❓")

/-- Python `round(q, 2)` on the kelvin conversion, idealized as
round-to-nearest on exact rationals (CPython rounds the nearest double
half-to-even; no claim exercises this branch numerically). -/
def pyRound2 (q : ℚ) : ℚ := (round (q * 100) : ℤ) / 100

/-- `Option ℚ` field to the JSON value placed in the result dict. -/
def optNum : Option ℚ → PyVal
  | some q => .num (.float q)
  | Option.none => .none

/-- `WeatherTask.execute` (`app/tasks/weather_task.py`).  `geo` and `wx`
are the oracles for the two Open-Meteo calls.  `httpx.TimeoutException`
anywhere in the `try` becomes `RuntimeError("Open-Meteo API request timed
out")`; `httpx.RequestError` is re-raised; the `ValueError`/`RuntimeError`
raises inside the block are not caught by those handlers. -/
def weatherExecute (city units : String) (geo : GeoResponse)
    (wx : WeatherResponse) : ExecOutcome :=
  if city = "" then
    .err (.valueError "Parameter 'city' must be a non-empty string")
  else if ¬(units = "metric" ∨ units = "imperial" ∨ units = "kelvin") then
    .err (.valueError "Parameter 'units' must be 'metric', 'imperial', or 'kelvin'")
  else
    match geo with
    | .timeout => .err (.runtimeError "Open-Meteo API request timed out")
    | .requestError m => .err (.requestError m)
    | .httpError code =>
      .err (.runtimeError ("Open-Meteo Geocoding API error: " ++ toString code))
    | .results [] => .err (.valueError ("City '" ++ city ++ "' not found"))
    | .results (loc :: _) =>
      match wx with
      | .timeout => .err (.runtimeError "Open-Meteo API request timed out")
      | .requestError m => .err (.requestError m)
      | .httpError code =>
        .err (.runtimeError ("Open-Meteo Weather API error: " ++ toString code))
      | .current cur tz =>
        let desc := weatherDescription (cur.weather_code.getD 0)
        let tempCurrent :=
          if units = "kelvin" then
            cur.temperature_2m.map (fun t => pyRound2 (t + 27315 / 100))
          else cur.temperature_2m
        let tempFeelsLike :=
          if units = "kelvin" then
            cur.apparent_temperature.map (fun t => pyRound2 (t + 27315 / 100))
          else cur.apparent_temperature
        .ok (.dict [
          ("city", .str (loc.name.getD city)),
          ("country", .str (loc.country_code.getD "")),
          ("coordinates", .dict [
            ("latitude", .num (.float loc.latitude)),
            ("longitude", .num (.float loc.longitude))]),
          ("weather", .dict [
            ("main", .str desc.1),
            ("description", .str desc.2.1),
            ("icon", .str desc.2.2)]),
          ("temperature", .dict [
            ("current", optNum tempCurrent),
            ("feels_like", optNum tempFeelsLike),
            ("min", .none),
            ("max", .none),
            ("units", .str units)]),
          ("humidity", optNum cur.relative_humidity_2m),
          ("pressure", optNum cur.pressure_msl),
          ("wind", .dict [
            ("speed", optNum cur.wind_speed_10m),
            ("direction", optNum cur.wind_direction_10m)]),
          ("visibility", .none),
          ("clouds", optNum cur.cloud_cover),
          ("timezone", match tz with
            | some t => .str t
            | Option.none => .none)])

/-! ## Worker execution engine (`BaseTask.run` in `app/tasks/base.py`) -/

/-- State visible to one task's executions: the durable row (if it still
exists), the ordered trace of every snapshot committed to the store
(starting with the row `run_task` created), the number of
`task_execution_duration` observations for this task, and the four
`tasks_by_status` gauges. -/
structure EngineState where
  record : Option TaskRecord
  trace : List TaskRecord
  durObs : Nat
  gPending : Int
  gRunning : Int
  gCompleted : Int
  gFailed : Int

/-- State right after `run_task` persisted the pending row and incremented
the `pending` gauge. -/
def dispatchedState : EngineState :=
  { record := some initialRecord
    trace := [initialRecord]
    durObs := 0
    gPending := 1
    gRunning := 0
    gCompleted := 0
    gFailed := 0 }

/-- First block of `BaseTask.run`: if the row is found, set
`status=RUNNING`, commit, and move the pending/running gauges; a missing
row is skipped (`if task:`). -/
def applyRunning (s : EngineState) : EngineState :=
  match s.record with
  | Option.none => s
  | some t =>
    let t' := { t with status := .running }
    { s with record := some t'
             trace := s.trace ++ [t']
             gPending := s.gPending - 1
             gRunning := s.gRunning + 1 }

/-- Success block of `BaseTask.run`: set `status=COMPLETED`, `result`,
`completed_at`, commit, move the running/completed gauges.  The
`error_message` column is not written. -/
def applyCompleted (r : PyVal) (now : Nat) (s : EngineState) : EngineState :=
  match s.record with
  | Option.none => s
  | some t =>
    let t' := { t with status := .completed
                       result := some r
                       completed_at := some now }
    { s with record := some t'
             trace := s.trace ++ [t']
             gRunning := s.gRunning - 1
             gCompleted := s.gCompleted + 1 }

/-- Exception block of `BaseTask.run`: set `status=FAILED`,
`error_message=str(e)`, `completed_at`, commit, move the gauges.  The
`result` column is not written. -/
def applyFailed (msg : String) (now : Nat) (s : EngineState) : EngineState :=
  match s.record with
  | Option.none => s
  | some t =>
    let t' := { t with status := .failed
                       error_message := some msg
                       completed_at := some now }
    { s with record := some t'
             trace := s.trace ++ [t']
             gRunning := s.gRunning - 1
             gFailed := s.gFailed + 1 }

/-- `BaseTask.run` for one execution attempt whose body produced
`outcome`; `now` is the attempt's completion tick.  Either way the
duration histogram is observed once (lines 82-83 and 107-108 of
`app/tasks/base.py`), and an exception is re-raised after the row
update. -/
def baseRun (outcome : ExecOutcome) (now : Nat) (s : EngineState) :
    EngineState × ExecOutcome :=
  let s1 := applyRunning s
  match outcome with
  | .ok r =>
    let s2 := applyCompleted r now s1
    ({ s2 with durObs := s2.durObs + 1 }, .ok r)
  | .err e =>
    let s2 := applyFailed e.message now s1
    ({ s2 with durObs := s2.durObs + 1 }, .err e)

/-! ## Celery wrappers (`sum_numbers`, `query_chatgpt`, `fetch_weather`) -/

/-- What one wrapper invocation does with the exception escaping
`task.run`: return the result, re-raise a `ValueError` unretried, or call
`self.retry(exc=exc)`. -/
inductive AttemptVerdict where
  | success (r : PyVal)
  | fatal (e : PyError)
  | retryable (e : PyError)

/-- One delivery handled by a Celery task wrapper: run `BaseTask.run`,
then classify the escaping exception (`if isinstance(exc, ValueError):
raise` / `raise self.retry(exc=exc)`). -/
def attemptOnce (outcome : ExecOutcome) (now : Nat) (s : EngineState) :
    EngineState × AttemptVerdict :=
  match baseRun outcome now s with
  | (s', .ok r) => (s', .success r)
  | (s', .err e) =>
    (s', if e.isValueError then .fatal e else .retryable e)

/-- The `@celery_app.task` keyword arguments the retry policy reads. -/
structure CeleryConfig where
  maxRetries : Nat
  defaultRetryDelay : Nat

/-- Final state of the whole delivery chain for one `task_uuid`. -/
inductive FinalVerdict where
  | succeeded (r : PyVal)
  | raised (e : PyError)

/-- Summary of a full Celery execution: final engine state, what the last
delivery did, how many attempts ran, and the countdown of each
re-delivery that `self.retry` scheduled. -/
structure RunSummary where
  state : EngineState
  verdict : FinalVerdict
  attempts : Nat
  retryDelays : List Nat

/-- The Celery retry driver: `outcome i` is what the body does on attempt
`i` (also used as that attempt's clock tick), `remaining` is
`max_retries - request.retries`.  `Task.retry(exc=exc)` re-delivers with
`countdown=default_retry_delay` while retries remain and re-raises `exc`
once they are exhausted; a `ValueError` is re-raised without retrying. -/
def celeryLoop (cfg : CeleryConfig) (outcome : Nat → ExecOutcome) :
    Nat → Nat → EngineState → RunSummary
  | idx, 0, s =>
    match attemptOnce (outcome idx) idx s with
    | (s', .success r) => ⟨s', .succeeded r, 1, []⟩
    | (s', .fatal e) => ⟨s', .raised e, 1, []⟩
    | (s', .retryable e) => ⟨s', .raised e, 1, []⟩
  | idx, rr + 1, s =>
    match attemptOnce (outcome idx) idx s with
    | (s', .success r) => ⟨s', .succeeded r, 1, []⟩
    | (s', .fatal e) => ⟨s', .raised e, 1, []⟩
    | (s', .retryable _) =>
      let rest := celeryLoop cfg outcome (idx + 1) rr s'
      ⟨rest.state, rest.verdict, rest.attempts + 1,
        cfg.defaultRetryDelay :: rest.retryDelays⟩

/-- Run a Celery task from the freshly dispatched state with its full
retry budget. -/
def celeryRun (cfg : CeleryConfig) (outcome : Nat → ExecOutcome) :
    RunSummary :=
  celeryLoop cfg outcome 0 cfg.maxRetries dispatchedState

/-- `sum_numbers` (`app/tasks/sum_task.py`): `max_retries=3`,
`default_retry_delay=60`; the body is deterministic. -/
def sumNumbers (a b : PyVal) : RunSummary :=
  celeryRun ⟨3, 60⟩ (fun _ => sumExecute a b)

/-- `query_chatgpt` (`app/tasks/chatgpt_task.py`): `max_retries=3`,
`default_retry_delay=30`; `api i` is the OpenAI response on attempt `i`. -/
def queryChatgpt (apiKey : String) (api : Nat → ChatApiOutcome)
    (prompt modelName : String) : RunSummary :=
  celeryRun ⟨3, 30⟩ (fun i => chatgptExecute apiKey (api i) prompt modelName)

/-- `fetch_weather` (`app/tasks/weather_task.py`): `max_retries=3`,
`default_retry_delay=30`; `geo i`/`wx i` are the Open-Meteo responses on
attempt `i`. -/
def fetchWeather (city units : String) (geo : Nat → GeoResponse)
    (wx : Nat → WeatherResponse) : RunSummary :=
  celeryRun ⟨3, 30⟩ (fun i => weatherExecute city units (geo i) (wx i))

/-! ## Output reader (`get_task_output` in `app/api/routes.py`) and cache -/

/-- The slice of `TaskOutputResponse` built from the row (the immutable
identity fields `task_uuid`, `task_name`, `created_at` omitted). -/
structure TaskView where
  status : TaskStatus
  task_output : Option PyVal
  error_message : Option String
  completed_at : Option Nat

/-- The `TaskOutputResponse(...)` constructed from a row. -/
def viewOf (t : TaskRecord) : TaskView :=
  { status := t.status
    task_output := t.result
    error_message := t.error_message
    completed_at := t.completed_at }

/-- State of the Redis handle inside `CacheService` for one `setex` call:
never connected (`self._redis is None`), healthy, or raising. -/
inductive CacheBackend where
  | absent
  | connected
  | failing (msg : String)

/-- `CacheService.set` (`app/core/cache.py`): returns `False` with no
backend; otherwise `setex` with `ttl or settings.cache_ttl_seconds`
(Python `or`: `None` and `0` both fall back to the default); a backend
exception propagates.  Returns whether the write happened and with which
TTL. -/
def cacheSet (b : CacheBackend) (ttl : Option Nat) :
    Except String (Bool × Option Nat) :=
  match b with
  | .absent => .ok (false, Option.none)
  | .failing m => .error m
  | .connected =>
    let effTtl := match ttl with
      | Option.none => settings.cacheTtlSeconds
      | some 0 => settings.cacheTtlSeconds
      | some (k + 1) => k + 1
    .ok (true, some effTtl)

/-- HTTP outcome of `GET /get-task-output`: a 200 view, a 404, or an
unhandled exception escaping the handler. -/
inductive ReadResult where
  | ok (v : TaskView)
  | notFound
  | raised (msg : String)

/-- `get_task_output`'s observable behaviour: its result plus the cache
write it performed (view and TTL), if any. -/
structure ReadOutcome where
  result : ReadResult
  cacheWrite : Option (TaskView × Nat)

/-- `get_task_output` (`app/api/routes.py`).  `cached` is what
`cache.get_task_output` returned (a cached view dict is non-empty, hence
truthy); `stored` is `session.get(Task, task_uuid)`.  The terminal-status
cache write is not wrapped in any exception handler. -/
def getTaskOutput (b : CacheBackend) (cached : Option TaskView)
    (stored : Option TaskRecord) : ReadOutcome :=
  match cached with
  | some v => { result := .ok v, cacheWrite := Option.none }
  | Option.none =>
    match stored with
    | Option.none => { result := .notFound, cacheWrite := Option.none }
    | some t =>
      let v := viewOf t
      if t.status = TaskStatus.completed ∨ t.status = TaskStatus.failed then
        match cacheSet b Option.none with
        | .error m => { result := .raised m, cacheWrite := Option.none }
        | .ok (true, some ttl) => { result := .ok v, cacheWrite := some (v, ttl) }
        | .ok (_, _) => { result := .ok v, cacheWrite := Option.none }
      else { result := .ok v, cacheWrite := Option.none }

/-! ## Lifecycle predicates used to state the claims -/

/-- The statuses of the persisted snapshots, in commit order. -/
def statusTrace (s : EngineState) : List TaskStatus :=
  s.trace.map TaskRecord.status

/-- The transitions the specification allows:
`pending → running → {completed | failed}`. -/
def allowedStep : TaskStatus → TaskStatus → Bool
  | .pending, .running => true
  | .running, .completed => true
  | .running, .failed => true
  | _, _ => false

/-- A status history is legal when every consecutive pair is an allowed
transition; in particular no terminal status is ever followed by
anything. -/
def legalTrace : List TaskStatus → Bool
  | [] => true
  | [_] => true
  | a :: b :: rest => allowedStep a b && legalTrace (b :: rest)

/-- The record invariant claimed for every task row: `result` non-null iff
`completed`, `error_message` non-null iff `failed`, both null while
`pending`/`running`. -/
def recordInvariantB (t : TaskRecord) : Bool :=
  match t.status with
  | .completed => t.result.isSome && t.error_message.isNone
  | .failed => t.error_message.isSome && t.result.isNone
  | .pending => t.result.isNone && t.error_message.isNone
  | .running => t.result.isNone && t.error_message.isNone

/-! ## The transient-failure-then-success scenario

A chatgpt delivery whose first OpenAI call raises a rate-limit
`OpenAIError` and whose retried call succeeds.  This is the concrete
execution on which the spec's monotonicity, result/error exclusivity and
single-duration-observation claims fail. -/

/-- OpenAI oracle: rate-limited on attempt 0, successful afterwards. -/
def retryScenarioApi : Nat → ChatApiOutcome
  | 0 => .openAIError "Rate limit exceeded"
  | _ => .success (some "Hello!") (some (3, 2, 5))

/-- The full Celery execution of that delivery chain. -/
def retryScenario : RunSummary :=
  queryChatgpt "test-key" retryScenarioApi "hi" "gpt-3.5-turbo"

/-! ## Engine lemmas -/

/-- Every execution attempt observes the duration histogram exactly once,
whether it completes or fails, and whether or not the row still exists. -/
theorem attemptOnce_durObs (o : ExecOutcome) (now : Nat) (s : EngineState) :
    (attemptOnce o now s).1.durObs = s.durObs + 1 := by
  cases o with
  | ok r =>
    cases h : s.record <;>
      simp [attemptOnce, baseRun, applyRunning, applyCompleted, h]
  | err e =>
    cases h : s.record <;>
      simp [attemptOnce, baseRun, applyRunning, applyFailed, h]

/-- A delivery whose attempt succeeds ends the chain at once. -/
theorem celeryLoop_success (cfg : CeleryConfig) (outcome : Nat → ExecOutcome)
    (idx : Nat) (s s' : EngineState) (r : PyVal) (remaining : Nat)
    (h : attemptOnce (outcome idx) idx s = (s', .success r)) :
    celeryLoop cfg outcome idx remaining s = ⟨s', .succeeded r, 1, []⟩ := by
  cases remaining <;> simp [celeryLoop, h]

/-- A delivery whose attempt raises a `ValueError` ends the chain at once,
with no re-delivery. -/
theorem celeryLoop_fatal (cfg : CeleryConfig) (outcome : Nat → ExecOutcome)
    (idx : Nat) (s s' : EngineState) (e : PyError) (remaining : Nat)
    (h : attemptOnce (outcome idx) idx s = (s', .fatal e)) :
    celeryLoop cfg outcome idx remaining s = ⟨s', .raised e, 1, []⟩ := by
  cases remaining <;> simp [celeryLoop, h]

/-- Over any delivery chain, the number of duration observations recorded
equals the number of attempts executed. -/
theorem celeryLoop_durObs (cfg : CeleryConfig) (outcome : Nat → ExecOutcome) :
    ∀ (remaining idx : Nat) (s : EngineState),
      (celeryLoop cfg outcome idx remaining s).state.durObs
        = s.durObs + (celeryLoop cfg outcome idx remaining s).attempts := by
  intro remaining
  induction remaining with
  | zero =>
    intro idx s
    have hd := attemptOnce_durObs (outcome idx) idx s
    rcases h : attemptOnce (outcome idx) idx s with ⟨s', v⟩
    rw [h] at hd
    have hd' : s'.durObs = s.durObs + 1 := hd
    cases v <;> simp [celeryLoop, h, hd']
  | succ rr ih =>
    intro idx s
    have hd := attemptOnce_durObs (outcome idx) idx s
    rcases h : attemptOnce (outcome idx) idx s with ⟨s', v⟩
    rw [h] at hd
    have hd' : s'.durObs = s.durObs + 1 := hd
    cases v with
    | success r => simp [celeryLoop, h, hd']
    | fatal e => simp [celeryLoop, h, hd']
    | retryable e =>
      have hrec := ih (idx + 1) s'
      simp [celeryLoop, h]
      omega

/-! ## Claims -/

/-- **C1, counterexample.**  The claim says no sequence of worker
executions ever moves a record from `failed` back to `running`.  On the
concrete chatgpt delivery whose first OpenAI call is rate-limited and
whose Celery retry succeeds, the persisted status history is
`pending, running, failed, running, completed`: the first attempt marks
the row `failed` before `self.retry` re-delivers, and the retry marks it
`running` again, leaving the terminal state. -/
theorem claim_C1_counterexample :
    statusTrace retryScenario.state
      = [.pending, .running, .failed, .running, .completed] ∧
    legalTrace (statusTrace retryScenario.state) = false := by
  exact ⟨rfl, rfl⟩

/-- **C1, amended.**  Executions that are never retried do follow
`pending → running → {completed | failed}` and never leave a terminal
state: for any retry configuration, a delivery whose body returns, and a
delivery whose body raises a `ValueError` (re-raised without retry), both
produce a legal status history.  Only a Celery retry of a transiently
failed execution re-enters `running` from `failed`. -/
theorem claim_C1 :
    (∀ (r : PyVal) (cfg : CeleryConfig),
      legalTrace (statusTrace (celeryRun cfg (fun _ => .ok r)).state) = true) ∧
    (∀ (m : String) (cfg : CeleryConfig),
      legalTrace (statusTrace
        (celeryRun cfg (fun _ => .err (.valueError m))).state) = true) := by
  constructor
  · intro r cfg
    rw [celeryRun, celeryLoop_success cfg _ 0 dispatchedState _ r cfg.maxRetries rfl]
    rfl
  · intro m cfg
    rw [celeryRun, celeryLoop_fatal cfg _ 0 dispatchedState _ (.valueError m)
      cfg.maxRetries rfl]
    rfl

/-- **C2, counterexample.**  On the rate-limited-then-retried chatgpt
delivery, the final row is `completed` yet still carries the first
attempt's `error_message` (the success block never clears the column), so
both `result` and `error_message` are non-null in a terminal state; the
retried attempt's `running` snapshot also carries the stale error.  The
persisted snapshots satisfy the claimed invariant only up to the first
retry. -/
theorem claim_C2_counterexample :
    retryScenario.state.trace.map recordInvariantB
      = [true, true, true, false, false] ∧
    retryScenario.state.record.map
        (fun t => (t.status, t.result.isSome, t.error_message))
      = some (.completed, true, some "Rate limit exceeded") := by
  exact ⟨rfl, rfl⟩

/-- **C2, amended.**  For executions that are never retried the claimed
exclusivity does hold: starting from the freshly dispatched row, every
snapshot committed by a delivery that completes, or that fails with a
`ValueError` (not retried), has `result` non-null iff `completed`,
`error_message` non-null iff `failed`, and both null while
`pending`/`running`.  After a transient failure is retried, the stale
`error_message` survives into the retried attempt's `running` and
`completed` snapshots. -/
theorem claim_C2 :
    (dispatchedState.trace.all recordInvariantB = true) ∧
    (∀ (r : PyVal) (cfg : CeleryConfig),
      (celeryRun cfg (fun _ => .ok r)).state.trace.all recordInvariantB
        = true) ∧
    (∀ (m : String) (cfg : CeleryConfig),
      (celeryRun cfg
          (fun _ => .err (.valueError m))).state.trace.all recordInvariantB
        = true) := by
  refine ⟨rfl, ?_, ?_⟩
  · intro r cfg
    rw [celeryRun, celeryLoop_success cfg _ 0 dispatchedState _ r cfg.maxRetries rfl]
    rfl
  · intro m cfg
    rw [celeryRun, celeryLoop_fatal cfg _ 0 dispatchedState _ (.valueError m)
      cfg.maxRetries rfl]
    rfl

/-- **C4, counterexample.**  The claim says a task that fails transiently
on its first attempt and completes on a retried attempt produces exactly
one duration observation.  On the concrete rate-limited-then-retried
chatgpt delivery, which ends `completed`, the histogram is observed twice
— once at the end of each attempt (`app/tasks/base.py` observes in both
the success and the exception path). -/
theorem claim_C4_counterexample :
    retryScenario.attempts = 2 ∧
    retryScenario.state.record.map TaskRecord.status = some .completed ∧
    retryScenario.state.durObs = 2 ∧
    retryScenario.state.durObs ≠ 1 := by
  refine ⟨rfl, rfl, rfl, ?_⟩
  decide

/-- **C4, amended.**  The duration metric is observed exactly once per
execution attempt, not once per terminal transition of the task: over any
delivery chain the number of observations equals the number of attempts
executed, so the transient-failure-then-success scenario observes twice. -/
theorem claim_C4 (cfg : CeleryConfig) (outcome : Nat → ExecOutcome) :
    (celeryRun cfg outcome).state.durObs = (celeryRun cfg outcome).attempts := by
  have h := celeryLoop_durObs cfg outcome cfg.maxRetries 0 dispatchedState
  simpa [celeryRun, dispatchedState] using h

/-- **C5.**  `get_task_output` is cache-aside: a cache hit is returned
without reading the store (the result does not depend on the store's
contents and no write occurs); a miss with no row is `not_found`; a miss
on a terminal row writes the view to the cache with the bounded default
TTL (`cache_ttl_seconds = 3600 > 0`) before returning it; a miss on a
`pending` or `running` row returns the view and never writes the
cache. -/
theorem claim_C5 :
    (∀ (b : CacheBackend) (v : TaskView) (stored : Option TaskRecord),
      getTaskOutput b (some v) stored
        = { result := .ok v, cacheWrite := Option.none }) ∧
    (∀ b : CacheBackend,
      getTaskOutput b Option.none Option.none
        = { result := .notFound, cacheWrite := Option.none }) ∧
    (∀ (res : Option PyVal) (msg : Option String) (ca : Option Nat),
      (getTaskOutput .connected Option.none (some ⟨.completed, res, msg, ca⟩)
        = { result := .ok ⟨.completed, res, msg, ca⟩
            cacheWrite := some (⟨.completed, res, msg, ca⟩,
              settings.cacheTtlSeconds) }) ∧
      (getTaskOutput .connected Option.none (some ⟨.failed, res, msg, ca⟩)
        = { result := .ok ⟨.failed, res, msg, ca⟩
            cacheWrite := some (⟨.failed, res, msg, ca⟩,
              settings.cacheTtlSeconds) }) ∧
      0 < settings.cacheTtlSeconds) ∧
    (∀ (b : CacheBackend) (res : Option PyVal) (msg : Option String)
        (ca : Option Nat),
      getTaskOutput b Option.none (some ⟨.pending, res, msg, ca⟩)
        = { result := .ok ⟨.pending, res, msg, ca⟩
            cacheWrite := Option.none } ∧
      getTaskOutput b Option.none (some ⟨.running, res, msg, ca⟩)
        = { result := .ok ⟨.running, res, msg, ca⟩
            cacheWrite := Option.none }) := by
  refine ⟨fun b v stored => rfl, fun b => rfl,
    fun res msg ca => ⟨rfl, rfl, by decide⟩,
    fun b res msg ca => ⟨rfl, rfl⟩⟩

/-- **C6, counterexample.**  The claim says a cache-write failure never
fails the read.  But the terminal-status cache write in `get_task_output`
is not wrapped in any exception handler, so when the cache backend raises
during `setex`, the exception escapes the route handler instead of the
completed view being returned. -/
theorem claim_C6_counterexample :
    getTaskOutput (.failing "redis connection reset") Option.none
        (some { status := .completed
                result := some (.dict [("result", .num (.int 8))])
                error_message := Option.none
                completed_at := some 0 })
      = { result := .raised "redis connection reset"
          cacheWrite := Option.none } := rfl

/-- **C6, amended.**  Cache population is best-effort only against an
absent backend: when `CacheService` was never connected, `set` returns
`False` without raising and the terminal view is still returned to the
caller; but when the connected backend raises during the write, the
exception propagates and `get_task_output` fails instead of returning the
view. -/
theorem claim_C6 :
    (∀ (res : Option PyVal) (msg : Option String) (ca : Option Nat),
      getTaskOutput .absent Option.none (some ⟨.completed, res, msg, ca⟩)
        = { result := .ok ⟨.completed, res, msg, ca⟩
            cacheWrite := Option.none } ∧
      getTaskOutput .absent Option.none (some ⟨.failed, res, msg, ca⟩)
        = { result := .ok ⟨.failed, res, msg, ca⟩
            cacheWrite := Option.none }) ∧
    (∀ (m : String) (res : Option PyVal) (msg : Option String)
        (ca : Option Nat),
      getTaskOutput (.failing m) Option.none (some ⟨.completed, res, msg, ca⟩)
        = { result := .raised m, cacheWrite := Option.none } ∧
      getTaskOutput (.failing m) Option.none (some ⟨.failed, res, msg, ca⟩)
        = { result := .raised m, cacheWrite := Option.none }) :=
  ⟨fun _ _ _ => ⟨rfl, rfl⟩, fun _ _ _ _ => ⟨rfl, rfl⟩⟩

/-- **C7.**  Any submission whose parameters fail validation gets a 400
with the validation reason, and `run_task` neither persists a row nor
enqueues a work item, so the submission never reaches `pending`. -/
theorem claim_C7 (taskName : TaskName) (p : Params) (m : String)
    (h : validateTaskParameters taskName p = .error m) :
    runTask taskName p
      = { response := .badRequest m
          created := Option.none
          enqueued := false } := by
  simp [runTask, h]

/-- Witness for C7: the empty sum submission is rejected with the missing
`a` reason and creates no durable state. -/
theorem claim_C7_witness :
    validateTaskParameters .sum []
      = .error "Parameter 'a' is required for sum task" ∧
    runTask .sum []
      = { response := .badRequest "Parameter 'a' is required for sum task"
          created := Option.none
          enqueued := false } :=
  ⟨rfl, claim_C7 .sum [] "Parameter 'a' is required for sum task" rfl⟩

/-- **C8.**  `a=5, b=3` makes the sum body return `result.result = 8`, and
the full Celery execution ends `completed` with that result; any sum
submission with a parameter whose magnitude exceeds
`max_number_value = 1e15` (such as `a=1e16`) is rejected by the validator
with an "exceeds maximum" reason and never reaches `pending`. -/
theorem claim_C8 :
    (sumExecute (.num (.int 5)) (.num (.int 3))
      = .ok (.dict [("operation", .str "sum"), ("a", .num (.int 5)),
          ("b", .num (.int 3)), ("result", .num (.int 8))])) ∧
    ((sumNumbers (.num (.int 5)) (.num (.int 3))).state.record.map
        (fun t => (t.status, t.result.bind (fun r => dictLookup r "result")))
      = some (.completed, some (.num (.int 8)))) ∧
    (∀ na nb : Number,
      numGtRat (numAbs na) settings.maxNumberValue = true →
      validateTaskParameters .sum [("a", .num na), ("b", .num nb)]
        = .error "Parameter 'a' exceeds maximum allowed value of 1e+15" ∧
      runTask .sum [("a", .num na), ("b", .num nb)]
        = { response :=
              .badRequest "Parameter 'a' exceeds maximum allowed value of 1e+15"
            created := Option.none
            enqueued := false }) ∧
    (∀ na nb : Number,
      numGtRat (numAbs na) settings.maxNumberValue = false →
      numGtRat (numAbs nb) settings.maxNumberValue = true →
      validateTaskParameters .sum [("a", .num na), ("b", .num nb)]
        = .error "Parameter 'b' exceeds maximum allowed value of 1e+15") := by
  refine ⟨rfl, rfl, ?_, ?_⟩
  · intro na nb h
    have lb : List.lookup "b" [("a", PyVal.num na), ("b", PyVal.num nb)]
        = some (PyVal.num nb) := rfl
    have hv : validateTaskParameters .sum [("a", .num na), ("b", .num nb)]
        = .error "Parameter 'a' exceeds maximum allowed value of 1e+15" := by
      simp [validateTaskParameters, lb, isNumber, toNumberD, h]
    exact ⟨hv, by simp [runTask, hv]⟩
  · intro na nb ha hb
    have lb : List.lookup "b" [("a", PyVal.num na), ("b", PyVal.num nb)]
        = some (PyVal.num nb) := rfl
    simp [validateTaskParameters, lb, isNumber, toNumberD, ha, hb]

/-- Witness for C8: `a = 1e16` trips the magnitude ceiling. -/
theorem claim_C8_witness :
    numGtRat (numAbs (.float 10000000000000000)) settings.maxNumberValue
      = true ∧
    validateTaskParameters .sum
        [("a", .num (.float 10000000000000000)), ("b", .num (.int 1))]
      = .error "Parameter 'a' exceeds maximum allowed value of 1e+15" := by
  have h : numGtRat (numAbs (Number.float 10000000000000000))
      settings.maxNumberValue = true := by decide
  exact ⟨h, (claim_C8.2.2.1 (.float 10000000000000000) (.int 1) h).1⟩

/-- **C9.**  Python's `bool` passes the `isinstance(..., (int, float))`
validator check, so `a=true, b=true` is accepted, the task runs, and it
completes with `result.result = 2` — booleans are silently coerced to
0/1, not rejected. -/
theorem claim_C9 :
    validateTaskParameters .sum [("a", .bool true), ("b", .bool true)]
      = .ok () ∧
    runTask .sum [("a", .bool true), ("b", .bool true)]
      = { response := .accepted
          created := some initialRecord
          enqueued := true } ∧
    sumExecute (.bool true) (.bool true)
      = .ok (.dict [("operation", .str "sum"), ("a", .bool true),
          ("b", .bool true), ("result", .num (.int 2))]) ∧
    (sumNumbers (.bool true) (.bool true)).state.record.map
        (fun t => (t.status, t.result.bind (fun r => dictLookup r "result")))
      = some (.completed, some (.num (.int 2))) :=
  ⟨rfl, rfl, rfl, rfl⟩

/-- The engine state after a single failed attempt on a freshly
dispatched row: the row is `failed` with the attempt's error message, the
trace holds the three committed snapshots, and the duration histogram was
observed once. -/
def failedOnceState (msg : String) : EngineState :=
  { record := some { status := .failed
                     result := Option.none
                     error_message := some msg
                     completed_at := some 0 }
    trace := [initialRecord,
      { status := .running
        result := Option.none
        error_message := Option.none
        completed_at := Option.none },
      { status := .failed
        result := Option.none
        error_message := some msg
        completed_at := some 0 }]
    durObs := 1
    gPending := 0
    gRunning := 0
    gCompleted := 0
    gFailed := 1 }

/-- A delivery whose first attempt raises a `ValueError` ends immediately
in `failedOnceState`: the error is re-raised, nothing is retried. -/
theorem celeryRun_first_fatal (cfg : CeleryConfig)
    (outcome : Nat → ExecOutcome) (e : PyError)
    (h : outcome 0 = .err e) (hv : e.isValueError = true) :
    celeryRun cfg outcome
      = ⟨failedOnceState e.message, .raised e, 1, []⟩ := by
  have ha : attemptOnce (outcome 0) 0 dispatchedState
      = (failedOnceState e.message, .fatal e) := by
    rw [h]
    simp [attemptOnce, baseRun, applyRunning, applyFailed, dispatchedState,
      initialRecord, failedOnceState, hv]
  rw [celeryRun, celeryLoop_fatal cfg outcome 0 dispatchedState _ e
    cfg.maxRetries ha]

/-- **C3.**  Failure classification of the weather task: a city the
geocoding step cannot resolve raises `ValueError("City '...' not
found")`, the task is marked `failed` at once and is never retried (one
attempt, no re-deliveries); any non-`ValueError` failure (here a
transport error from the HTTP client) is retried through the queue up to
`max_retries = 3` with `default_retry_delay = 30` seconds between
attempts, and after the budget is exhausted the task is `failed` with the
last transient error as its message. -/
theorem claim_C3 :
    (∀ (city : String) (geo : Nat → GeoResponse) (wx : Nat → WeatherResponse),
      city ≠ "" → geo 0 = .results [] →
      (fetchWeather city "metric" geo wx).attempts = 1 ∧
      (fetchWeather city "metric" geo wx).retryDelays = [] ∧
      (fetchWeather city "metric" geo wx).verdict
        = .raised (.valueError ("City '" ++ city ++ "' not found")) ∧
      (fetchWeather city "metric" geo wx).state.record.map
          (fun t => (t.status, t.error_message))
        = some (.failed, some ("City '" ++ city ++ "' not found"))) ∧
    (∀ (city : String) (msgs : Nat → String) (wx : Nat → WeatherResponse),
      city ≠ "" →
      (fetchWeather city "metric"
          (fun i => .requestError (msgs i)) wx).attempts = 4 ∧
      (fetchWeather city "metric"
          (fun i => .requestError (msgs i)) wx).retryDelays = [30, 30, 30] ∧
      (fetchWeather city "metric"
          (fun i => .requestError (msgs i)) wx).verdict
        = .raised (.requestError (msgs 3)) ∧
      (fetchWeather city "metric"
          (fun i => .requestError (msgs i)) wx).state.record.map
          (fun t => (t.status, t.error_message))
        = some (.failed, some (msgs 3))) := by
  constructor
  · intro city geo wx hc hg
    have hexec : (fun i => weatherExecute city "metric" (geo i) (wx i)) 0
        = .err (.valueError ("City '" ++ city ++ "' not found")) := by
      show weatherExecute city "metric" (geo 0) (wx 0) = _
      rw [hg]
      simp [weatherExecute, hc]
    have hrun := celeryRun_first_fatal ⟨3, 30⟩
      (fun i => weatherExecute city "metric" (geo i) (wx i))
      (.valueError ("City '" ++ city ++ "' not found")) hexec rfl
    simp only [fetchWeather]
    rw [hrun]
    exact ⟨rfl, rfl, rfl, rfl⟩
  · intro city msgs wx hc
    have hcFalse : (city = "") = False := eq_false hc
    refine ⟨?_, ?_, ?_, ?_⟩ <;>
      simp [fetchWeather, celeryRun, celeryLoop, attemptOnce, baseRun,
        applyRunning, applyFailed, weatherExecute, dispatchedState,
        initialRecord, hcFalse, PyError.isValueError, PyError.message]

/-- Witness for C3: geocoding "Atlantis" finds nothing — one attempt, no
retries; a transport error on every attempt — four attempts. -/
theorem claim_C3_witness :
    ("Atlantis" : String) ≠ "" ∧
    (fetchWeather "Atlantis" "metric" (fun _ => .results [])
        (fun _ => .timeout)).attempts = 1 ∧
    (fetchWeather "Atlantis" "metric" (fun _ => .results [])
        (fun _ => .timeout)).retryDelays = [] ∧
    (fetchWeather "Atlantis" "metric"
        (fun _ => .requestError "Connection failed")
        (fun _ => .timeout)).attempts = 4 ∧
    (fetchWeather "Atlantis" "metric"
        (fun _ => .requestError "Connection failed")
        (fun _ => .timeout)).retryDelays = [30, 30, 30] := by
  have hc : ("Atlantis" : String) ≠ "" := by decide
  have hA := claim_C3.1 "Atlantis" (fun _ => .results []) (fun _ => .timeout)
    hc rfl
  have hB := claim_C3.2 "Atlantis" (fun _ => "Connection failed")
    (fun _ => .timeout) hc
  exact ⟨hc, hA.1, hA.2.1, hB.1, hB.2.1⟩

/-! ## C10: the stripped-versus-raw prompt length mismatch -/

/-- `dropWhile` keeps a block whose head the predicate rejects. -/
theorem dropWhile_replicate_append_neg (f : Char → Bool) (a : Char)
    (h : f a = false) (n : Nat) (hn : n ≠ 0) (l : List Char) :
    List.dropWhile f (List.replicate n a ++ l) = List.replicate n a ++ l := by
  cases n with
  | zero => exact absurd rfl hn
  | succ k => simp [List.replicate_succ, List.dropWhile_cons, h]

/-- `dropWhile` consumes a leading block the predicate accepts. -/
theorem dropWhile_replicate_append_pos (f : Char → Bool) (a : Char)
    (h : f a = true) :
    ∀ (n : Nat) (l : List Char),
      List.dropWhile f (List.replicate n a ++ l) = List.dropWhile f l := by
  intro n
  induction n with
  | zero => intro l; rfl
  | succ k ih => intro l; simp [List.replicate_succ, List.dropWhile_cons, h, ih]

/-- `dropWhile` keeps a whole block whose element the predicate
rejects. -/
theorem dropWhile_replicate_neg (f : Char → Bool) (a : Char)
    (h : f a = false) (n : Nat) :
    List.dropWhile f (List.replicate n a) = List.replicate n a := by
  cases n with
  | zero => rfl
  | succ k => simp [List.replicate_succ, List.dropWhile_cons, h]

/-- The concrete C10 prompt: 10000 `a`s followed by 5 spaces.  Its
stripped length (10000) passes the validator's ceiling while its raw
length (10005) trips the execution body's check. -/
def p0 : String := String.mk (List.replicate 10000 'a' ++ List.replicate 5 ' ')

/-- Stripping `p0` removes exactly the 5 trailing spaces. -/
theorem pyStrip_p0 : pyStrip p0 = String.mk (List.replicate 10000 'a') := by
  have hd : p0.data = List.replicate 10000 'a' ++ List.replicate 5 ' ' := rfl
  rw [pyStrip, hd,
    dropWhile_replicate_append_neg Char.isWhitespace 'a' rfl 10000
      (by decide) _,
    List.reverse_append, List.reverse_replicate, List.reverse_replicate,
    dropWhile_replicate_append_pos Char.isWhitespace ' ' rfl,
    dropWhile_replicate_neg Char.isWhitespace 'a' rfl,
    List.reverse_replicate]

/-- Raw length of the C10 prompt. -/
theorem p0_length : p0.length = 10005 := by
  show (List.replicate 10000 'a' ++ List.replicate 5 ' ').length = 10005
  rw [List.length_append, List.length_replicate, List.length_replicate]

/-- Stripped length of the C10 prompt. -/
theorem pyStrip_p0_length : (pyStrip p0).length = 10000 := by
  rw [pyStrip_p0]
  show (List.replicate 10000 'a').length = 10000
  rw [List.length_replicate]

/-- **C10.**  For any prompt whose stripped length is within
`max_prompt_length = 10000` but whose raw length exceeds it, the chatgpt
validator (which strips before measuring) accepts the submission and a
`pending` row is created and enqueued; yet `ChatGPTTask.execute` (which
measures the raw prompt) raises `ValueError("Prompt exceeds maximum
length of 10000 characters")` before any API call, so the task ends
`failed` with that message after a single attempt, never retried. -/
theorem claim_C10 (p : String) (hne : pyStrip p ≠ "")
    (hstrip : (pyStrip p).length ≤ 10000) (hraw : p.length > 10000) :
    validateTaskParameters .chatgpt [("prompt", .str p)] = .ok () ∧
    runTask .chatgpt [("prompt", .str p)]
      = { response := .accepted
          created := some initialRecord
          enqueued := true } ∧
    (∀ (apiKey modelName : String) (api : ChatApiOutcome),
      chatgptExecute apiKey api p modelName
        = .err (.valueError
            "Prompt exceeds maximum length of 10000 characters")) ∧
    (∀ (apiKey modelName : String) (api : Nat → ChatApiOutcome),
      (queryChatgpt apiKey api p modelName).attempts = 1 ∧
      (queryChatgpt apiKey api p modelName).retryDelays = [] ∧
      (queryChatgpt apiKey api p modelName).verdict
        = .raised (.valueError
            "Prompt exceeds maximum length of 10000 characters") ∧
      (queryChatgpt apiKey api p modelName).state.record.map
          (fun t => (t.status, t.error_message))
        = some (.failed,
            some "Prompt exceeds maximum length of 10000 characters")) := by
  have hp : p ≠ "" := by
    intro h
    rw [h] at hraw
    exact absurd hraw (by decide)
  have hstrip' : ¬((pyStrip p).length > settings.maxPromptLength) := by
    show ¬((pyStrip p).length > 10000)
    omega
  have hval : validateTaskParameters .chatgpt [("prompt", .str p)]
      = .ok () := by
    have lp : List.lookup "prompt" [("prompt", PyVal.str p)]
        = some (PyVal.str p) := rfl
    have lt : List.lookup "max_tokens" [("prompt", PyVal.str p)]
        = Option.none := rfl
    have lte : List.lookup "temperature" [("prompt", PyVal.str p)]
        = Option.none := rfl
    simp [validateTaskParameters, validateTaskParameters.validateTemperature,
      lp, lt, lte, hne, hstrip']
  have hexec : ∀ (apiKey modelName : String) (api : ChatApiOutcome),
      chatgptExecute apiKey api p modelName
        = .err (.valueError
            "Prompt exceeds maximum length of 10000 characters") := by
    intro apiKey modelName api
    have hraw' : p.length > settings.maxPromptLength := hraw
    simp [chatgptExecute, hp, hraw']
  refine ⟨hval, by simp [runTask, hval], hexec, ?_⟩
  intro apiKey modelName api
  have hrun := celeryRun_first_fatal ⟨3, 30⟩
    (fun i => chatgptExecute apiKey (api i) p modelName)
    (.valueError "Prompt exceeds maximum length of 10000 characters")
    (hexec apiKey modelName (api 0)) rfl
  simp only [queryChatgpt]
  rw [hrun]
  exact ⟨rfl, rfl, rfl, rfl⟩

/-- Witness for C10: the 10005-character prompt `p0` is accepted by the
validator yet rejected by the execution body, failing the task in one
attempt. -/
theorem claim_C10_witness :
    pyStrip p0 ≠ "" ∧ (pyStrip p0).length ≤ 10000 ∧ p0.length > 10000 ∧
    validateTaskParameters .chatgpt [("prompt", .str p0)] = .ok () ∧
    (queryChatgpt "k" (fun _ => .openAIError "boom") p0
        "gpt-3.5-turbo").attempts = 1 ∧
    (queryChatgpt "k" (fun _ => .openAIError "boom") p0
        "gpt-3.5-turbo").retryDelays = [] := by
  have hne : pyStrip p0 ≠ "" := by
    intro h
    have hl := congrArg String.length h
    rw [pyStrip_p0_length] at hl
    exact absurd hl (by decide)
  have hs : (pyStrip p0).length ≤ 10000 := by rw [pyStrip_p0_length]
  have hr : p0.length > 10000 := by rw [p0_length]; decide
  have h := claim_C10 p0 hne hs hr
  have h4 := h.2.2.2 "k" "gpt-3.5-turbo" (fun _ => .openAIError "boom")
  exact ⟨hne, hs, hr, h.1, h4.1, h4.2.1⟩

end Tasker
